import Mathlib

/-!
Verification of the document-editor repository (dashboard, editor page,
read-only view page) against its specification.

The embedding below translates the client pages' logic into pure Lean
functions.  Network calls to the record store are modelled by explicit
result values (`FetchResult`, `WriteResult`); user-visible effects
(toast notifications, route navigation) are returned as data.
`JSON.parse` is a platform builtin, so page functions that depend on it
take the parse outcome as a function parameter `parse : String → Option
ContentTree`; `JSON.stringify` is modelled by the executable
`stringifyTree` below.
-/

namespace GDocs

/-- Document status: `"draft" | "published"` (page.tsx `DocumentData`). -/
inductive Status where
  | draft
  | published
deriving DecidableEq

/-- The structured rich-text content: a tree of typed nodes, where leaf
text nodes carry a string and interior nodes carry a type tag
(`"doc"`, `"paragraph"`, ...) and ordered children. -/
inductive ContentTree where
  | text (text : String)
  | node (type : String) (content : List ContentTree)

mutual

def treeDecEq : (a b : ContentTree) → Decidable (a = b)
  | ContentTree.text a, ContentTree.text b =>
      match decEq a b with
      | isTrue h => isTrue (by rw [h])
      | isFalse h => isFalse (by intro hc; cases hc; exact h rfl)
  | ContentTree.text _, ContentTree.node _ _ => isFalse nofun
  | ContentTree.node _ _, ContentTree.text _ => isFalse nofun
  | ContentTree.node ta ca, ContentTree.node tb cb =>
      match decEq ta tb, forestDecEq ca cb with
      | isTrue h1, isTrue h2 => isTrue (by rw [h1, h2])
      | isFalse h1, _ => isFalse (by intro hc; cases hc; exact h1 rfl)
      | _, isFalse h2 => isFalse (by intro hc; cases hc; exact h2 rfl)

def forestDecEq : (a b : List ContentTree) → Decidable (a = b)
  | [], [] => isTrue rfl
  | [], _ :: _ => isFalse nofun
  | _ :: _, [] => isFalse nofun
  | a :: as, b :: bs =>
      match treeDecEq a b, forestDecEq as bs with
      | isTrue h1, isTrue h2 => isTrue (by rw [h1, h2])
      | isFalse h1, _ => isFalse (by intro hc; cases hc; exact h1 rfl)
      | _, isFalse h2 => isFalse (by intro hc; cases hc; exact h2 rfl)

end

instance : DecidableEq ContentTree := treeDecEq

/-- A JS content value as it arrives from the store: either a serialized
string (legacy form) or an already-structured tree.  Both pages branch on
`typeof data.content === "string"`. -/
inductive ContentVal where
  | str (s : String)
  | obj (t : ContentTree)
deriving DecidableEq

/-- A row of the `documents` table (the store returns `select("*")`). -/
structure StoreDoc where
  id : String
  title : String
  content : ContentVal
  status : Status
  user_id : String
  created_at : Nat
  updated_at : Nat
deriving DecidableEq

/-- A toast notification as raised through `useToast`. -/
structure Toast where
  title : String
  description : String
  destructive : Bool
deriving DecidableEq

/-- Outcome of a `supabase...select("*").eq("id", id).single()` call:
the row, or no row with no error (the dead `if (!data)` branch), or an
error (which `.single()` also returns when zero rows match). -/
inductive FetchResult where
  | ok (d : StoreDoc)
  | noData
  | err
deriving DecidableEq

/-- Outcome of a store write (`insert` / `update` / `delete`). -/
inductive WriteResult where
  | ok
  | err
deriving DecidableEq

mutual

/-- Model of `JSON.stringify` on a content tree (string escaping is omitted: every
string this development serializes is escape-free). -/
def stringifyTree : ContentTree → String
  | ContentTree.text t =>
      "\x7b\"type\":\"text\",\"text\":\"" ++ t ++ "\"\x7d"
  | ContentTree.node ty cs =>
      "\x7b\"type\":\"" ++ ty ++ "\",\"content\":[" ++ stringifyChildren cs ++ "]\x7d"

def stringifyChildren : List ContentTree → String
  | [] => ""
  | [c] => stringifyTree c
  | c :: c2 :: cs => stringifyTree c ++ "," ++ stringifyChildren (c2 :: cs)

end

/-- Model of `typeof content === "string" ? content : JSON.stringify(content)`
(editor page `saveDocument`). -/
def serializeContent : ContentVal → String
  | ContentVal.str s => s
  | ContentVal.obj t => stringifyTree t

/-- The "Access denied" toast of the view page. -/
def accessDeniedToast : Toast :=
  { title := "Access denied"
    description := "This document is not published for viewing"
    destructive := true }

/-- The "Failed to fetch document" toast (editor and view pages). -/
def fetchFailToast : Toast :=
  { title := "Error", description := "Failed to fetch document", destructive := true }

/-- Outcome of the view page's `fetchDocument`: either the document is
kept in state (and the page renders it), or the user is redirected with
the listed toasts. -/
inductive ViewOutcome where
  | render (d : StoreDoc)
  | redirect (toasts : List Toast) (route : String)
deriving DecidableEq

/-- The view page's `fetchDocument` (view/page.tsx lines 29-66): on a
fetch error, toast and redirect to `/`; on missing data, redirect to `/`;
on `status !== "published"`, "Access denied" toast and redirect to `/`;
otherwise `setDocument(data)` and the page renders it.  The requester's
identity is never consulted — the owner is gated exactly like anyone
else. -/
def viewFetchDocument (res : FetchResult) : ViewOutcome :=
  match res with
  | FetchResult.err => ViewOutcome.redirect [fetchFailToast] "/"
  | FetchResult.noData => ViewOutcome.redirect [] "/"
  | FetchResult.ok d =>
      if d.status ≠ Status.published then
        ViewOutcome.redirect [accessDeniedToast] "/"
      else
        ViewOutcome.render d

/-- C1: a view-route fetch renders the document iff its status is
published; a draft document yields the "Access denied" toast and a
redirect to `/` (the requester, owner included, never sees the content —
`viewFetchDocument` takes no requester identity at all). -/
theorem C1_view_gate (res : FetchResult) (d : StoreDoc) :
    (viewFetchDocument res = ViewOutcome.render d ↔
      res = FetchResult.ok d ∧ d.status = Status.published) ∧
    (viewFetchDocument (FetchResult.ok d) =
      if d.status = Status.published then ViewOutcome.render d
      else ViewOutcome.redirect [accessDeniedToast] "/") := by
  constructor
  · cases res with
    | err => simp [viewFetchDocument]
    | noData => simp [viewFetchDocument]
    | ok d' =>
        by_cases h : d'.status = Status.published
        · simp only [viewFetchDocument, h]
          simp only [ne_eq, not_true_eq_false, if_false]
          constructor
          · rintro h2
            cases h2
            exact ⟨rfl, h⟩
          · rintro ⟨h2, _⟩
            cases h2
            rfl
        · simp only [viewFetchDocument, ne_eq, h, not_false_iff, if_true]
          constructor
          · intro h2
            exact absurd h2 (by simp)
          · rintro ⟨h2, h3⟩
            cases h2
            exact absurd h3 h
  · by_cases h : d.status = Status.published
    · simp [viewFetchDocument, h]
    · simp [viewFetchDocument, h]

/-- Stable insert of a row into a list already sorted by `updated_at`
descending (model of the store's `ORDER BY updated_at DESC`). -/
def insertByUpdatedDesc (d : StoreDoc) : List StoreDoc → List StoreDoc
  | [] => [d]
  | x :: xs =>
      if x.updated_at ≤ d.updated_at then d :: x :: xs
      else x :: insertByUpdatedDesc d xs

/-- Sort the whole table by `updated_at` descending. -/
def sortByUpdatedDesc (l : List StoreDoc) : List StoreDoc :=
  l.foldr insertByUpdatedDesc []

/-- The dashboard's `fetchDocuments` query (dashboard/page.tsx lines
40-62): `supabase.from("documents").select("*").order("updated_at",
ascending: false)`.  Note: the query carries no owner filter — there is
no `.eq("user_id", user.id)` — so it selects every row of the table. -/
def fetchDocumentsQuery (store : List StoreDoc) : List StoreDoc :=
  sortByUpdatedDesc store

theorem mem_insertByUpdatedDesc (d x : StoreDoc) (l : List StoreDoc) :
    x ∈ insertByUpdatedDesc d l ↔ x = d ∨ x ∈ l := by
  induction l with
  | nil => simp [insertByUpdatedDesc]
  | cons y ys ih =>
      by_cases h : y.updated_at ≤ d.updated_at
      · simp [insertByUpdatedDesc, h]
      · simp only [insertByUpdatedDesc, h, if_false, List.mem_cons, ih]
        tauto

theorem mem_fetchDocumentsQuery (store : List StoreDoc) (x : StoreDoc) :
    x ∈ fetchDocumentsQuery store ↔ x ∈ store := by
  unfold fetchDocumentsQuery
  induction store with
  | nil => simp [sortByUpdatedDesc]
  | cons y ys ih =>
      simp only [sortByUpdatedDesc, List.foldr_cons, List.mem_cons]
      rw [sortByUpdatedDesc] at ih
      rw [mem_insertByUpdatedDesc, ih]

/-- Alice's own document. -/
def aliceDoc : StoreDoc :=
  { id := "d1", title := "Alice notes", content := ContentVal.str "x"
    status := Status.draft, user_id := "alice", created_at := 1, updated_at := 5 }

/-- A document owned by a different user, Bob. -/
def bobDoc : StoreDoc :=
  { id := "d2", title := "Bob notes", content := ContentVal.str "y"
    status := Status.draft, user_id := "bob", created_at := 2, updated_at := 3 }

/-- C2: the dashboard listing query has no owner filter, so with the
table holding Alice's and Bob's documents, the listing produced for any
caller — in particular for Alice — contains Bob's document, whose
`user_id` is not Alice's.  (The `updated_at` descending order itself is
honoured: the result is exactly `[aliceDoc, bobDoc]`.) -/
theorem C2_listing_not_owner_filtered :
    fetchDocumentsQuery [aliceDoc, bobDoc] = [aliceDoc, bobDoc] ∧
    bobDoc ∈ fetchDocumentsQuery [aliceDoc, bobDoc] ∧
    bobDoc.user_id ≠ "alice" := by
  refine ⟨by decide, by decide, by decide⟩

/-- JS `String.prototype.toLowerCase` (ASCII model). -/
def toLowerStr (s : String) : String := String.mk (s.toList.map Char.toLower)

/-- Whether `pat` occurs as a prefix of `l` (helper for `includes`). -/
def listStarts [DecidableEq α] : List α → List α → Bool
  | [], _ => true
  | _ :: _, [] => false
  | a :: as, b :: bs => a = b && listStarts as bs

/-- Whether `pat` occurs contiguously inside `l` (helper for `includes`). -/
def listHasSub [DecidableEq α] (pat : List α) : List α → Bool
  | [] => pat.isEmpty
  | b :: bs => listStarts pat (b :: bs) || listHasSub pat bs

/-- JS `haystack.includes(needle)`: `needle` occurs as a contiguous
substring of `haystack`. -/
def strIncludes (haystack needle : String) : Bool :=
  listHasSub needle.toList haystack.toList

/-- The dashboard status filter: `"all" | "draft" | "published"`. -/
inductive StatusFilter where
  | all
  | draft
  | published
deriving DecidableEq

/-- Model of `statusFilter === "all" || doc.status === statusFilter`
(dashboard/page.tsx line 133). -/
def statusMatches (f : StatusFilter) (s : Status) : Bool :=
  match f with
  | StatusFilter.all => true
  | StatusFilter.draft => s = Status.draft
  | StatusFilter.published => s = Status.published

/-- The dashboard's `filteredDocuments` (dashboard/page.tsx lines
131-135): keep the documents whose lower-cased title contains the
lower-cased search query and whose status passes the status filter. -/
def filteredDocuments (documents : List StoreDoc) (searchQuery : String)
    (statusFilter : StatusFilter) : List StoreDoc :=
  documents.filter (fun doc =>
    strIncludes (toLowerStr doc.title) (toLowerStr searchQuery) &&
    statusMatches statusFilter doc.status)

/-- The three documents of the spec's dashboard-filter example. -/
def planA : StoreDoc :=
  { id := "a", title := "Plan A", content := ContentVal.str "x"
    status := Status.draft, user_id := "u", created_at := 0, updated_at := 0 }

def planB : StoreDoc :=
  { id := "b", title := "Plan B", content := ContentVal.str "x"
    status := Status.published, user_id := "u", created_at := 0, updated_at := 0 }

def notesDoc : StoreDoc :=
  { id := "n", title := "Notes", content := ContentVal.str "x"
    status := Status.draft, user_id := "u", created_at := 0, updated_at := 0 }

/-- C9: the dashboard filter keeps exactly the documents whose title
contains the query (case-insensitively) and whose status passes the
status filter; the `all` filter passes every status; and on the spec's
example — Plan A (draft), Plan B (published), Notes (draft) with query
"Plan" and filter draft — exactly Plan A remains. -/
theorem C9_dashboard_filter (documents : List StoreDoc) (q : String)
    (f : StatusFilter) (s : Status) (d : StoreDoc) :
    (d ∈ filteredDocuments documents q f ↔
      d ∈ documents ∧
        strIncludes (toLowerStr d.title) (toLowerStr q) = true ∧
        statusMatches f d.status = true) ∧
    statusMatches StatusFilter.all s = true ∧
    filteredDocuments [planA, planB, notesDoc] "Plan" StatusFilter.draft = [planA] := by
  refine ⟨?_, rfl, by decide⟩
  simp [filteredDocuments, List.mem_filter, Bool.and_eq_true, and_assoc]

/-- The "Success"/"Document deleted successfully" toast. -/
def deleteSuccessToast : Toast :=
  { title := "Success", description := "Document deleted successfully", destructive := false }

/-- The "Failed to delete document" toast. -/
def deleteFailToast : Toast :=
  { title := "Error", description := "Failed to delete document", destructive := true }

/-- The dashboard's `deleteDocument` (dashboard/page.tsx lines 98-119):
on success, the local listing becomes
`documents.filter((doc) => doc.id !== id)` and a success toast is shown;
on failure, only an error toast is shown and the listing is untouched. -/
def deleteDocument (documents : List StoreDoc) (id : String)
    (res : WriteResult) : List StoreDoc × List Toast :=
  match res with
  | WriteResult.ok => (documents.filter (fun doc => doc.id != id), [deleteSuccessToast])
  | WriteResult.err => (documents, [deleteFailToast])

/-- C6: after a successful delete the listing contains a document iff it
was there before and its id differs from the deleted one (so the deleted
id is gone and every other document is retained), the retained documents
keep their original order (sublist), and a failed delete leaves the
listing exactly as it was. -/
theorem C6_delete_from_listing (documents : List StoreDoc) (id : String)
    (d : StoreDoc) :
    (d ∈ (deleteDocument documents id WriteResult.ok).1 ↔
      d ∈ documents ∧ d.id ≠ id) ∧
    (deleteDocument documents id WriteResult.ok).1.Sublist documents ∧
    (deleteDocument documents id WriteResult.err).1 = documents := by
  refine ⟨?_, ?_, rfl⟩
  · simp [deleteDocument, List.mem_filter]
  · exact List.filter_sublist documents

/-- The editor page's in-memory state relevant to saving (page.tsx):
the `title`, `content` and `status` React state after load (`content` is
non-null whenever a save can run, since `saveDocument` bails when no
document is loaded). -/
structure EditorState where
  title : String
  content : ContentVal
  status : Status
  isSaving : Bool
deriving DecidableEq

/-- The body sent by the editor page's update call (page.tsx lines
125-132): full title/content/status plus a fresh `updated_at`.  Times
are modelled as `Nat` ticks. -/
structure UpdatePayload where
  title : String
  content : String
  status : Status
  updated_at : Nat
deriving DecidableEq

/-- The update body built by `saveDocument`: `title`, `content`
serialized (`typeof content === "string" ? content :
JSON.stringify(content)`), `status`, and `updated_at = now`. -/
def savePayload (st : EditorState) (now : Nat) : UpdatePayload :=
  { title := st.title
    content := serializeContent st.content
    status := st.status
    updated_at := now }

/-- The "Failed to save document" toast. -/
def saveFailToast : Toast :=
  { title := "Error", description := "Failed to save document", destructive := true }

/-- The "Document saved"/"Your document has been saved successfully"
toast shown by `handleManualSave`. -/
def savedToast : Toast :=
  { title := "Document saved"
    description := "Your document has been saved successfully"
    destructive := false }

/-- Effects of an editor action: toasts raised and any route navigated
to. -/
structure SaveEffects where
  toasts : List Toast
  navigatedTo : Option String
deriving DecidableEq

/-- The editor page's `saveDocument` (page.tsx lines 120-148): bail if
no document or no user is loaded; otherwise send the update payload.
On failure only the error toast is raised — there is no navigation and
none of the `title`/`content`/`status` state setters is called
(`setIsSaving` toggles true then false in `finally`, netting `false`).
Returns (new state, payload sent if any, effects). -/
def saveDocument (hasDoc hasUser : Bool) (st : EditorState) (now : Nat)
    (res : WriteResult) : EditorState × Option UpdatePayload × SaveEffects :=
  if !hasDoc || !hasUser then
    (st, none, { toasts := [], navigatedTo := none })
  else
    match res with
    | WriteResult.ok =>
        ({ st with isSaving := false }, some (savePayload st now),
          { toasts := [], navigatedTo := none })
    | WriteResult.err =>
        ({ st with isSaving := false }, some (savePayload st now),
          { toasts := [saveFailToast], navigatedTo := none })

/-- C5: a failed save surfaces only as a toast — the editor navigates
nowhere and the in-memory `title`, `content` and `status` are exactly
what they were before the attempt, so the user can retry with the same
local edits.  (When the guard skips the save, no effect at all is
produced.) -/
theorem C5_save_failure_preserves_state (hasDoc hasUser : Bool)
    (st : EditorState) (now : Nat) :
    (saveDocument hasDoc hasUser st now WriteResult.err).1.title = st.title ∧
    (saveDocument hasDoc hasUser st now WriteResult.err).1.content = st.content ∧
    (saveDocument hasDoc hasUser st now WriteResult.err).1.status = st.status ∧
    (saveDocument hasDoc hasUser st now WriteResult.err).2.2.navigatedTo = none ∧
    (saveDocument hasDoc hasUser st now WriteResult.err).2.2.toasts =
      (if hasDoc && hasUser then [saveFailToast] else []) := by
  cases hasDoc <;> cases hasUser <;> simp [saveDocument]

/-- The body sent by `handleStatusChange`'s update call (page.tsx lines
153-159): only `status` and `updated_at`. -/
structure StatusUpdatePayload where
  status : Status
  updated_at : Nat
deriving DecidableEq

/-- The update body built by `handleStatusChange`: the new status and a
fresh `updated_at`, nothing else. -/
def statusChangePayload (newStatus : Status) (now : Nat) : StatusUpdatePayload :=
  { status := newStatus, updated_at := now }

/-- Applying a status-only partial update to a stored row: only the
fields present in the body change. -/
def applyStatusUpdate (d : StoreDoc) (p : StatusUpdatePayload) : StoreDoc :=
  { d with status := p.status, updated_at := p.updated_at }

/-- C7: every update write refreshes `updated_at` (the autosave/manual
`savePayload` and the `statusChangePayload` both stamp `now`); a content
write stores a JSON string — serializing via `stringifyTree` when the
in-memory value is an object, passing an already-string value through —
and a status-change write touches only `status` and `updated_at`,
leaving `title` and `content` of the stored row untouched. -/
theorem C7_update_writes (st : EditorState) (t : ContentTree) (s : String)
    (newStatus : Status) (now : Nat) (d : StoreDoc) :
    (savePayload st now).updated_at = now ∧
    (statusChangePayload newStatus now).updated_at = now ∧
    (savePayload { st with content := ContentVal.obj t } now).content = stringifyTree t ∧
    (savePayload { st with content := ContentVal.str s } now).content = s ∧
    (applyStatusUpdate d (statusChangePayload newStatus now)).title = d.title ∧
    (applyStatusUpdate d (statusChangePayload newStatus now)).content = d.content ∧
    (applyStatusUpdate d (statusChangePayload newStatus now)).status = newStatus ∧
    (applyStatusUpdate d (statusChangePayload newStatus now)).updated_at = now := by
  exact ⟨rfl, rfl, rfl, rfl, rfl, rfl, rfl, rfl⟩

/-- The editor page's `handleManualSave` (page.tsx lines 179-185):
`await saveDocument()` — which swallows its own failure — then
unconditionally raise the "Document saved" toast. -/
def handleManualSave (hasDoc hasUser : Bool) (st : EditorState) (now : Nat)
    (res : WriteResult) : EditorState × Option UpdatePayload × SaveEffects :=
  let r := saveDocument hasDoc hasUser st now res
  (r.1, r.2.1,
    { toasts := r.2.2.toasts ++ [savedToast], navigatedTo := r.2.2.navigatedTo })

/-- C10: the manual save action always raises the "saved successfully"
toast after the save call returns, whatever the write's outcome — on a
failed write the toasts are exactly the failure toast followed by the
success toast. -/
theorem C10_manual_save_toast (hasDoc hasUser : Bool) (st : EditorState)
    (now : Nat) (res : WriteResult) :
    savedToast ∈ (handleManualSave hasDoc hasUser st now res).2.2.toasts ∧
    (handleManualSave true true st now WriteResult.err).2.2.toasts =
      [saveFailToast, savedToast] := by
  constructor
  · cases hasDoc <;> cases hasUser <;> cases res <;>
      simp [handleManualSave, saveDocument]
  · simp [handleManualSave, saveDocument]

/-- The default content of a freshly created document: a `doc` node
holding a single paragraph with one empty text node (dashboard/page.tsx
lines 71-74). -/
def newDocumentTree : ContentTree :=
  ContentTree.node "doc" [ContentTree.node "paragraph" [ContentTree.text ""]]

/-- The row body sent by the dashboard's `insert` call. -/
structure InsertPayload where
  title : String
  content : String
  user_id : String
  status : Status
deriving DecidableEq

/-- The insert body built by `createNewDocument` (dashboard/page.tsx
lines 64-96): default title, the serialized empty-paragraph tree, the
current user's id, status draft. -/
def createPayload (userId : String) : InsertPayload :=
  { title := "Untitled Document"
    content := stringifyTree newDocumentTree
    user_id := userId
    status := Status.draft }

/-- The store's execution of the insert: append exactly one new row
carrying the payload's fields under a generated id. -/
def insertDocument (store : List StoreDoc) (p : InsertPayload)
    (newId : String) (now : Nat) : List StoreDoc :=
  store ++ [{ id := newId, title := p.title, content := ContentVal.str p.content
              status := p.status, user_id := p.user_id
              created_at := now, updated_at := now }]

/-- The "Failed to create new document" toast. -/
def createFailToast : Toast :=
  { title := "Error", description := "Failed to create new document", destructive := true }

/-- Caller-side outcome of `createNewDocument`: on success (the insert
returned a row with the generated id) navigate to
`/document/<id>`; on failure, toast only. -/
def createNewDocument (generated : Option String) : Option String × List Toast :=
  match generated with
  | some newId => (some ("/document/" ++ newId), [])
  | none => (none, [createFailToast])

/-- C8: creating a document inserts exactly one new record — default
placeholder title, content the serialized single-empty-paragraph tree,
status draft, owner the current user — and on success the caller
navigates to the editor route of the generated id. -/
theorem C8_create_document (userId newId : String) (store : List StoreDoc)
    (now : Nat) :
    (createPayload userId).title = "Untitled Document" ∧
    (createPayload userId).content = stringifyTree newDocumentTree ∧
    (createPayload userId).status = Status.draft ∧
    (createPayload userId).user_id = userId ∧
    (insertDocument store (createPayload userId) newId now).length =
      store.length + 1 ∧
    (insertDocument store (createPayload userId) newId now).drop store.length =
      [{ id := newId, title := "Untitled Document"
         content := ContentVal.str (stringifyTree newDocumentTree)
         status := Status.draft, user_id := userId
         created_at := now, updated_at := now }] ∧
    (insertDocument store (createPayload userId) newId now).take store.length =
      store ∧
    createNewDocument (some newId) = (some ("/document/" ++ newId), []) := by
  refine ⟨rfl, rfl, rfl, rfl, ?_, ?_, ?_, rfl⟩
  · simp [insertDocument]
  · simp [insertDocument, createPayload]
  · simp [insertDocument]

/-- Outcome of the editor page's `fetchDocument` (page.tsx lines
89-118): either the document is loaded into state (title, parsed
content tree, status) and the editor renders, or the user is redirected
to a route with the listed toasts. -/
inductive EditorFetchOutcome where
  | loaded (title : String) (content : ContentTree) (status : Status)
  | redirect (toasts : List Toast) (route : String)
deriving DecidableEq

/-- The editor page's `fetchDocument`: a fetch error is caught — toast
and `router.push("/dashboard")`; missing data redirects silently; on
data, `setContent(typeof data.content === "string" ?
JSON.parse(data.content) : data.content)` runs inside the `try`, so a
parse throw lands in the same catch: toast and redirect to the
dashboard, and since `content` stays null the page renders no editor
(`content && <TiptapEditor .../>`). -/
def editorFetchDocument (parse : String → Option ContentTree)
    (res : FetchResult) : EditorFetchOutcome :=
  match res with
  | FetchResult.err => EditorFetchOutcome.redirect [fetchFailToast] "/dashboard"
  | FetchResult.noData => EditorFetchOutcome.redirect [] "/dashboard"
  | FetchResult.ok d =>
      match d.content with
      | ContentVal.obj t => EditorFetchOutcome.loaded d.title t d.status
      | ContentVal.str s =>
          match parse s with
          | some t => EditorFetchOutcome.loaded d.title t d.status
          | none => EditorFetchOutcome.redirect [fetchFailToast] "/dashboard"

/-- What the view page's render step produces once `fetchDocument` has
stored a document (view/page.tsx lines 80-101): the read-only editor
over the parsed content, or — since `JSON.parse(document.content)` runs
inside the JSX, outside any try/catch — an uncaught render exception.
The render body raises no toast and performs no navigation on either
path. -/
structure ViewRender where
  editorShown : Option (String × ContentTree)
  crashed : Bool
  toasts : List Toast
  navigatedTo : Option String
deriving DecidableEq

/-- The view page's render of a fetched document: parse string content
at render time (`typeof document.content === "string" ?
JSON.parse(document.content) : document.content`); a parse throw is
uncaught. -/
def viewRenderDocument (parse : String → Option ContentTree)
    (d : StoreDoc) : ViewRender :=
  match d.content with
  | ContentVal.obj t =>
      { editorShown := some (d.title, t), crashed := false
        toasts := [], navigatedTo := none }
  | ContentVal.str s =>
      match parse s with
      | some t =>
          { editorShown := some (d.title, t), crashed := false
            toasts := [], navigatedTo := none }
      | none =>
          { editorShown := none, crashed := true
            toasts := [], navigatedTo := none }

/-- A parse outcome under which every string fails to deserialize —
the instantiation of the platform `JSON.parse` parameter used to place a
corrupt document in front of the pages. -/
def failingParse : String → Option ContentTree := fun _ => none

/-- A published document whose stored content is a corrupt string. -/
def viewBadDoc : StoreDoc :=
  { id := "d9", title := "Broken", content := ContentVal.str "oops"
    status := Status.published, user_id := "alice"
    created_at := 1, updated_at := 1 }

/-- C3 counterexample: a published document whose string content fails
to parse is accepted by the view page's fetch (it is kept for
rendering), and the render step then crashes with an uncaught
exception: no toast is shown and no navigation to a safe page occurs —
contradicting the claim that the view page reacts with a notification
and navigation. -/
theorem C3_view_parse_counterexample :
    viewFetchDocument (FetchResult.ok viewBadDoc) = ViewOutcome.render viewBadDoc ∧
    (viewRenderDocument failingParse viewBadDoc).crashed = true ∧
    (viewRenderDocument failingParse viewBadDoc).editorShown = none ∧
    (viewRenderDocument failingParse viewBadDoc).toasts = [] ∧
    (viewRenderDocument failingParse viewBadDoc).navigatedTo = none := by
  exact ⟨by decide, rfl, rfl, rfl, rfl⟩

/-- C3 (amended): on a document whose stored content fails to
deserialize, the editor page abstains and treats the failure like
NotFound — error toast and navigation to the dashboard, no editor —
while the read-only view page also never shows an editor but, instead
of a notification and navigation, fails with an uncaught render
exception (its parse runs during render, outside the fetch error
handling). -/
theorem C3_parse_failure_handling (parse : String → Option ContentTree)
    (d : StoreDoc) (s : String) (hc : d.content = ContentVal.str s)
    (hp : parse s = none) :
    editorFetchDocument parse (FetchResult.ok d) =
      EditorFetchOutcome.redirect [fetchFailToast] "/dashboard" ∧
    (viewRenderDocument parse d).editorShown = none ∧
    (viewRenderDocument parse d).crashed = true ∧
    (viewRenderDocument parse d).toasts = [] ∧
    (viewRenderDocument parse d).navigatedTo = none := by
  refine ⟨?_, ?_, ?_, ?_, ?_⟩ <;>
    simp [editorFetchDocument, viewRenderDocument, hc, hp]

/-- C3 witness: the amended behaviour evaluated at the concrete corrupt
published document. -/
theorem C3_parse_failure_handling_witness :
    editorFetchDocument failingParse (FetchResult.ok viewBadDoc) =
      EditorFetchOutcome.redirect [fetchFailToast] "/dashboard" ∧
    (viewRenderDocument failingParse viewBadDoc).editorShown = none ∧
    (viewRenderDocument failingParse viewBadDoc).crashed = true ∧
    (viewRenderDocument failingParse viewBadDoc).toasts = [] ∧
    (viewRenderDocument failingParse viewBadDoc).navigatedTo = none :=
  C3_parse_failure_handling failingParse viewBadDoc "oops" rfl rfl

/-- Modelled from the spec: the `useDebounce` hook (imported from
`@/hooks/use-debounce`, not present under `src/`).  Spec §4.3: "on
every new value, any pending timer is cancelled and restarted; only the
last value within a quiet window is ever emitted", quiet interval
`delay` ms.  Input: the time-ordered list of raw value changes; output:
the settled emissions — a change at time `t` survives (emitting at
`t + delay`) iff no further change arrives strictly before `t + delay`. -/
def debounceEmits {α : Type} (delay : Nat) : List (Nat × α) → List (Nat × α)
  | [] => []
  | (t, v) :: rest =>
      match rest with
      | [] => [(t + delay, v)]
      | (t2, _) :: _ =>
          if t2 < t + delay then debounceEmits delay rest
          else (t + delay, v) :: debounceEmits delay rest

/-- The raw (undebounced) React state value at time `t`: the last change
at or before `t`, or the initial value. -/
def latestAt {α : Type} (t : Nat) (init : α) (changes : List (Nat × α)) : α :=
  changes.foldl (fun acc p => if p.1 ≤ t then p.2 else acc) init

/-- Merge two ascending time lists, deduplicating equal times (React
batches same-tick settlements of both streams into one effect run). -/
def mergeTimes : List Nat → List Nat → List Nat
  | [], ys => ys
  | x :: xs, [] => x :: xs
  | x :: xs, y :: ys =>
      if x < y then x :: mergeTimes xs (y :: ys)
      else if y < x then y :: mergeTimes (x :: xs) ys
      else x :: mergeTimes xs ys

/-- The times at which the save effect runs (page.tsx lines 83-87): the
effect fires whenever `debouncedContent` or `debouncedTitle` changes,
i.e. at each settled emission of either stream.  In a loaded session the
`debouncedContent && document` guard holds: the document is loaded and
the settled content is a JS object, which is always truthy. -/
def saveTimes (delay : Nat) (contentChanges : List (Nat × ContentTree))
    (titleChanges : List (Nat × String)) : List Nat :=
  mergeTimes ((debounceEmits delay contentChanges).map Prod.fst)
    ((debounceEmits delay titleChanges).map Prod.fst)

/-- The saves fired during a loaded editing session with initial title
`t0` and initial content `c0`: one save per trigger time, and
`saveDocument` sends the raw `title` and `content` state current at that
moment — the latest values of both streams, not the settled ones. -/
def firedSaves (delay : Nat) (t0 : String) (c0 : ContentTree)
    (contentChanges : List (Nat × ContentTree))
    (titleChanges : List (Nat × String)) : List (Nat × String × ContentTree) :=
  (saveTimes delay contentChanges titleChanges).map
    (fun t => (t, latestAt t t0 titleChanges, latestAt t c0 contentChanges))

/-- C4: content and title are debounced with a 1000 ms quiet interval —
any new value within the window cancels and restarts the pending timer
(second conjunct, the definitional step of the debounce) — so the burst
of content changes at t = 0, 100, 300, 950 ms settles exactly once, at
t = 1950 ms, carrying the last value; the fired saves for that burst are
exactly one save at 1950 with the latest title and content; and when a
title edit at t = 200 also settles (at 1200), each save carries the
latest values of both title and content at its trigger time. -/
theorem C4_debounced_autosave (c0 c1 c2 c3 c4 : ContentTree)
    (t0 t1 : String) (delay ta tb : Nat) (va vb : ContentTree)
    (rest : List (Nat × ContentTree)) :
    debounceEmits 1000 [(0, c1), (100, c2), (300, c3), (950, c4)] =
      [(1950, c4)] ∧
    debounceEmits delay ((ta, va) :: (tb, vb) :: rest) =
      (if tb < ta + delay then debounceEmits delay ((tb, vb) :: rest)
       else (ta + delay, va) :: debounceEmits delay ((tb, vb) :: rest)) ∧
    firedSaves 1000 t0 c0 [(0, c1), (100, c2), (300, c3), (950, c4)] [] =
      [(1950, t0, c4)] ∧
    firedSaves 1000 t0 c0 [(0, c1), (100, c2), (300, c3), (950, c4)]
        [(200, t1)] =
      [(1200, t1, c4), (1950, t1, c4)] := by
  refine ⟨?_, rfl, ?_, ?_⟩ <;>
    norm_num [firedSaves, saveTimes, mergeTimes, debounceEmits, latestAt]

end GDocs
